import Mathlib

/-!
Shallow embedding of `noaa/tides.py` (package `noaa_py`), the NOAA Tides and
Currents API client.  Python `None`-able fields become `Option`; Python
truthiness of each field is modelled explicitly (`datetime` objects are always
truthy, an `int` is truthy iff nonzero, an enum member is always truthy).
Methods that can raise become `Except`/`Option`-valued functions; the network
transport is a function parameter `fetch`.  Timestamps are modelled at minute
resolution, which is the resolution of both wire formats used by the module
(`%Y%m%d %H:%M` and `%Y-%m-%d %H:%M`).
-/

set_option maxHeartbeats 1000000
set_option linter.unnecessarySeqFocus false

namespace Tides

/-- Minute-resolution model of `datetime.datetime` values. -/
structure Datetime where
  year : Nat
  month : Nat
  day : Nat
  hour : Nat
  minute : Nat
deriving DecidableEq

/-- Python `<` on `datetime` objects: lexicographic on the components. -/
def Datetime.ltB (a b : Datetime) : Bool :=
  if a.year ≠ b.year then a.year < b.year
  else if a.month ≠ b.month then a.month < b.month
  else if a.day ≠ b.day then a.day < b.day
  else if a.hour ≠ b.hour then a.hour < b.hour
  else a.minute < b.minute

/-- Zero-pad a number to two digits, as `%m`, `%d`, `%H`, `%M` do. -/
def pad2 (n : Nat) : String :=
  if n < 10 then "0" ++ toString n else toString n

/-- Zero-pad a number to four digits, as `%Y` does for calendar years. -/
def pad4 (n : Nat) : String :=
  if n < 10 then "000" ++ toString n
  else if n < 100 then "00" ++ toString n
  else if n < 1000 then "0" ++ toString n
  else toString n

/-- `datetime.strftime` with `NoaaTimeRange._FORMAT_STRING = '%Y%m%d %H:%M'`. -/
def Datetime.strftime (d : Datetime) : String :=
  pad4 d.year ++ pad2 d.month ++ pad2 d.day ++ " " ++ pad2 d.hour ++ ":" ++ pad2 d.minute

/-- Python `str.split(sep)` for a one-character separator, over the character
list: no regex, consecutive separators yield empty components, the empty
string yields `[""]`. -/
def splitChar (sep : Char) : List Char → List (List Char)
  | [] => [[]]
  | c :: rest =>
    match splitChar sep rest with
    | [] => [[]]
    | g :: gs => if c = sep then [] :: g :: gs else (c :: g) :: gs

/-- Python `str.split(sep)` on a string, for a one-character separator. -/
def pySplit (s : String) (sep : Char) : List String :=
  (splitChar sep s.toList).map (fun l => String.mk l)

/-- Numeric value of a decimal digit string: `none` unless it is nonempty and
all digits. -/
def digitsToNat? (l : List Char) : Option Nat :=
  if !l.isEmpty && l.all Char.isDigit then
    some (l.foldl (fun acc c => 10 * acc + (c.toNat - 48)) 0)
  else none

/-- Python `str.strip()`: remove leading and trailing whitespace. -/
def trimChars (l : List Char) : List Char :=
  ((l.dropWhile Char.isWhitespace).reverse.dropWhile Char.isWhitespace).reverse

/-- Gregorian leap-year test, as `datetime` uses for day-of-month validation. -/
def isLeapYear (y : Nat) : Bool :=
  y % 4 = 0 && (y % 100 ≠ 0 || y % 400 = 0)

/-- Number of days in a month, as `datetime` uses to validate a parsed day. -/
def daysInMonth (y m : Nat) : Nat :=
  if m = 2 then (if isLeapYear y then 29 else 28)
  else if m = 4 || m = 6 || m = 9 || m = 11 then 30
  else 31

/-- `datetime.strptime` with `_DATE_FORMAT = '%Y-%m-%d %H:%M'` (the format both
result parsers use): a four-digit year, one-or-two-digit month, day, hour and
minute, with in-range component values; any other input raises `ValueError`,
modelled as `none`. -/
def strptime (s : String) : Option Datetime :=
  match splitChar ' ' s.toList with
  | [ds, ts] =>
    match splitChar '-' ds, splitChar ':' ts with
    | [ys, mos, days], [hs, mins] =>
      if ys.length = 4 && mos.length ≤ 2 && days.length ≤ 2
          && hs.length ≤ 2 && mins.length ≤ 2 then
        match digitsToNat? ys, digitsToNat? mos, digitsToNat? days,
              digitsToNat? hs, digitsToNat? mins with
        | some y, some mo, some d, some h, some mi =>
          if 1 ≤ mo && mo ≤ 12 && 1 ≤ d && d ≤ daysInMonth y mo
              && h ≤ 23 && mi ≤ 59 then
            some ⟨y, mo, d, h, mi⟩
          else none
        | _, _, _, _, _ => none
      else none
    | _, _ => none
  | _ => none

/-- Python `int(s)` on a string: optional surrounding whitespace, optional
sign, then decimal digits; anything else raises `ValueError` (`none`). -/
def pyInt (s : String) : Option Int :=
  match trimChars s.toList with
  | [] => none
  | c :: rest =>
    if c = '-' then (digitsToNat? rest).map (fun n => -(n : Int))
    else if c = '+' then (digitsToNat? rest).map (fun n => (n : Int))
    else (digitsToNat? (c :: rest)).map (fun n => (n : Int))

/-- Unsigned decimal literal body of Python `float(s)`: digits with an optional
decimal point (at least one digit overall), valued as a rational. -/
def parseDecimal (l : List Char) : Option Rat :=
  match splitChar '.' l with
  | [ip] => (digitsToNat? ip).map (fun n => (n : Rat))
  | [ip, fp] =>
    if ip.isEmpty && fp.isEmpty then none
    else
      match (if ip.isEmpty then some 0 else digitsToNat? ip),
            (if fp.isEmpty then some 0 else digitsToNat? fp) with
      | some ipn, some fpn =>
        some ((ipn : Rat) + (fpn : Rat) / ((10 : Rat) ^ fp.length))
      | _, _ => none
  | _ => none

/-- Python `float(s)` restricted to plain decimal literals (the only shape the
wire format carries): optional surrounding whitespace, optional sign, then a
decimal literal; anything else raises `ValueError` (`none`). -/
def pyFloat (s : String) : Option Rat :=
  match trimChars s.toList with
  | [] => none
  | c :: rest =>
    if c = '-' then (parseDecimal rest).map (fun q => -q)
    else if c = '+' then parseDecimal rest
    else parseDecimal (c :: rest)

/-- `class TimeZone(enum.Enum)`. -/
inductive TimeZone where
  | GMT
  | LOCAL
  | LOCAL_DST
deriving DecidableEq

/-- The `.value` of each `TimeZone` member. -/
def TimeZone.value : TimeZone → String
  | .GMT => "gmt"
  | .LOCAL => "lst"
  | .LOCAL_DST => "lst_ldt"

/-- Members of `TimeZone`, in declaration order. -/
def TimeZone.members : List TimeZone := [.GMT, .LOCAL, .LOCAL_DST]

/-- `TimeZone(s)`: value lookup, `ValueError` (`none`) on no match. -/
def TimeZone.ofValue (s : String) : Option TimeZone :=
  TimeZone.members.find? (fun m => m.value == s)

/-- `class Interval(enum.Enum)`. -/
inductive Interval where
  | HILO
  | HOUR
deriving DecidableEq

/-- The `.value` of each `Interval` member. -/
def Interval.value : Interval → String
  | .HILO => "hilo"
  | .HOUR => "h"

/-- Members of `Interval`, in declaration order. -/
def Interval.members : List Interval := [.HILO, .HOUR]

/-- `Interval(s)`: value lookup, `ValueError` (`none`) on no match. -/
def Interval.ofValue (s : String) : Option Interval :=
  Interval.members.find? (fun m => m.value == s)

/-- `class Datum(enum.Enum)`. -/
inductive Datum where
  | COLUMBIA_RIVER
  | GREAT_LAKES
  | GREAT_LAKES_LOW_WATER
  | MEAN_HIGHER_HIGH_WATER
  | MEAN_HIGH_WATER
  | MEAN_TIDE_LEVEL
  | MEAN_SEA_LEVEL
  | MEAN_LOW_WATER
  | MEAN_LOWER_LOW_WATER
  | N_AMERICAN_VERTICAL
  | STATION
deriving DecidableEq

/-- The `.value` of each `Datum` member. -/
def Datum.value : Datum → String
  | .COLUMBIA_RIVER => "CRD"
  | .GREAT_LAKES => "IGLD"
  | .GREAT_LAKES_LOW_WATER => "LWD"
  | .MEAN_HIGHER_HIGH_WATER => "MHHW"
  | .MEAN_HIGH_WATER => "MHW"
  | .MEAN_TIDE_LEVEL => "MTL"
  | .MEAN_SEA_LEVEL => "MSL"
  | .MEAN_LOW_WATER => "MLW"
  | .MEAN_LOWER_LOW_WATER => "MLLW"
  | .N_AMERICAN_VERTICAL => "NAVD"
  | .STATION => "STND"

/-- Members of `Datum`, in declaration order. -/
def Datum.members : List Datum :=
  [.COLUMBIA_RIVER, .GREAT_LAKES, .GREAT_LAKES_LOW_WATER, .MEAN_HIGHER_HIGH_WATER,
   .MEAN_HIGH_WATER, .MEAN_TIDE_LEVEL, .MEAN_SEA_LEVEL, .MEAN_LOW_WATER,
   .MEAN_LOWER_LOW_WATER, .N_AMERICAN_VERTICAL, .STATION]

/-- `Datum(s)`: value lookup, `ValueError` (`none`) on no match. -/
def Datum.ofValue (s : String) : Option Datum :=
  Datum.members.find? (fun m => m.value == s)

/-- `class Product(enum.Enum)`. -/
inductive Product where
  | WATER_LEVEL
  | AIR_TEMP
  | WATER_TEMP
  | WIND
  | AIR_PRESSURE
  | AIR_GAP
  | CONDUCT
  | VIS
  | HUMIDITY
  | SALINITY
  | HOURLY_HEIGHT
  | HIGH_LOW
  | DAILY_MEAN
  | MONTHLY_MEAN
  | ONE_MIN_WL
  | PREDICTIONS
  | DATUMS
  | CURRENTS
deriving DecidableEq

/-- The `.value` of each `Product` member. -/
def Product.value : Product → String
  | .WATER_LEVEL => "water_level"
  | .AIR_TEMP => "air_temperature"
  | .WATER_TEMP => "water_temp"
  | .WIND => "wind"
  | .AIR_PRESSURE => "air_pressure"
  | .AIR_GAP => "air_gap"
  | .CONDUCT => "conductivity"
  | .VIS => "visibility"
  | .HUMIDITY => "humidity"
  | .SALINITY => "salinity"
  | .HOURLY_HEIGHT => "hourly_height"
  | .HIGH_LOW => "high_low"
  | .DAILY_MEAN => "daily_mean"
  | .MONTHLY_MEAN => "monthly_mean"
  | .ONE_MIN_WL => "one_minute_water_level"
  | .PREDICTIONS => "predictions"
  | .DATUMS => "datums"
  | .CURRENTS => "currents"

/-- Members of `Product`, in declaration order. -/
def Product.members : List Product :=
  [.WATER_LEVEL, .AIR_TEMP, .WATER_TEMP, .WIND, .AIR_PRESSURE, .AIR_GAP,
   .CONDUCT, .VIS, .HUMIDITY, .SALINITY, .HOURLY_HEIGHT, .HIGH_LOW,
   .DAILY_MEAN, .MONTHLY_MEAN, .ONE_MIN_WL, .PREDICTIONS, .DATUMS, .CURRENTS]

/-- `Product(s)`: value lookup, `ValueError` (`none`) on no match. -/
def Product.ofValue (s : String) : Option Product :=
  Product.members.find? (fun m => m.value == s)

/-- `class Unit(enum.Enum)`. -/
inductive Unit where
  | ENGLISH
  | METRIC
deriving DecidableEq

/-- The `.value` of each `Unit` member. -/
def Unit.value : Unit → String
  | .ENGLISH => "english"
  | .METRIC => "metric"

/-- Members of `Unit`, in declaration order. -/
def Unit.members : List Unit := [.ENGLISH, .METRIC]

/-- `Unit(s)`: value lookup, `ValueError` (`none`) on no match. -/
def Unit.ofValue (s : String) : Option Unit :=
  Unit.members.find? (fun m => m.value == s)

/-- `class NoaaDate(enum.Enum)`. -/
inductive NoaaDate where
  | TODAY
  | LATEST
  | RECENT
deriving DecidableEq

/-- The `.value` of each `NoaaDate` member. -/
def NoaaDate.value : NoaaDate → String
  | .TODAY => "today"
  | .LATEST => "latest"
  | .RECENT => "recent"

/-- Members of `NoaaDate`, in declaration order. -/
def NoaaDate.members : List NoaaDate := [.TODAY, .LATEST, .RECENT]

/-- `NoaaDate(s)`: value lookup, `ValueError` (`none`) on no match. -/
def NoaaDate.ofValue (s : String) : Option NoaaDate :=
  NoaaDate.members.find? (fun m => m.value == s)

/-- Truthiness of the `hours: int = None` field: `None` and `0` are falsy. -/
def hoursTruthy : Option Int → Bool
  | none => false
  | some h => h != 0

/-- Truthiness of the `station: int = None` field: `None` and `0` are falsy. -/
def stationTruthy : Option Int → Bool
  | none => false
  | some n => n != 0

/-- `class NoaaTimeRange`, with its `__init__` defaults (all fields `None`).
`datetime` objects and enum members are always truthy, so for `begin`, `end`
and `date` the Python truthiness test is `isSome`. -/
structure NoaaTimeRange where
  begin : Option Datetime := none
  «end» : Option Datetime := none
  hours : Option Int := none
  date : Option NoaaDate := none
deriving DecidableEq

/-- `NoaaTimeRange.is_valid`, translated branch for branch; each guard is the
truthiness test of the corresponding Python `if`.  The final branch of the
source returns `isinstance(self.date, NoaaDate)`, which is always true in this
typed embedding (the `date` field holds enum members only). -/
def NoaaTimeRange.is_valid (tr : NoaaTimeRange) : Bool :=
  -- if self.begin and self.end and not (self.hours or self.date):
  if tr.begin.isSome && tr.«end».isSome && !(hoursTruthy tr.hours || tr.date.isSome) then
    -- return self.begin < self.end
    Datetime.ltB (tr.begin.getD ⟨0, 0, 0, 0, 0⟩) (tr.«end».getD ⟨0, 0, 0, 0, 0⟩)
  -- if self.begin and self.hours and not (self.end or self.date):
  else if tr.begin.isSome && hoursTruthy tr.hours && !(tr.«end».isSome || tr.date.isSome) then
    decide (0 < tr.hours.getD 0)
  -- if self.end and self.hours and not (self.begin or self.date):
  else if tr.«end».isSome && hoursTruthy tr.hours && !(tr.begin.isSome || tr.date.isSome) then
    decide (0 < tr.hours.getD 0)
  -- if self.hours and not (self.begin or self.end or self.date):
  else if hoursTruthy tr.hours && !(tr.begin.isSome || tr.«end».isSome || tr.date.isSome) then
    decide (0 < tr.hours.getD 0)
  -- if self.date and not (self.begin or self.end or self.hours):
  else if tr.date.isSome && !(tr.begin.isSome || tr.«end».isSome || hoursTruthy tr.hours) then
    true
  else
    false

/-- `NoaaTimeRange.as_dict`: an insertion-ordered dict, modelled as an
association list; one entry per truthy field, in source order. -/
def NoaaTimeRange.as_dict (tr : NoaaTimeRange) : List (String × String) :=
  (match tr.begin with
   | some b => [("begin_date", b.strftime)]
   | none => []) ++
  (match tr.«end» with
   | some e => [("end_date", e.strftime)]
   | none => []) ++
  (match tr.hours with
   | some h => if h != 0 then [("range", toString h)] else []
   | none => []) ++
  (match tr.date with
   | some d => [("date", d.value)]
   | none => [])

/-- `NoaaTimeRange.__str__`: ampersand-joined `key=value` pairs of `as_dict`. -/
def NoaaTimeRange.queryString (tr : NoaaTimeRange) : String :=
  String.intercalate "&" (tr.as_dict.map (fun kv => kv.1 ++ "=" ++ kv.2))

/-- `class ApiError(Exception)`: the only exception class the module defines. -/
structure ApiError where
  message : String
deriving DecidableEq

/-- A Python `ValueError`, as raised by `Enum(value)` lookup on a bad string. -/
structure ValueError where
  message : String
deriving DecidableEq

/-- `class NoaaRequest`, with its `__init__` defaults (all fields `None`, the
time range fresh and empty). -/
structure NoaaRequest where
  _time_range : NoaaTimeRange := {}
  _product : Option Product := none
  _datum : Option Datum := none
  _units : Option Unit := none
  _station : Option Int := none
  _interval : Option Interval := none
  _timezone : Option TimeZone := none
deriving DecidableEq

/-- `NoaaRequest.begin_date`: writes `self._time_range.begin`, returns self. -/
def NoaaRequest.begin_date (r : NoaaRequest) (b : Datetime) : NoaaRequest :=
  { r with _time_range := { r._time_range with begin := some b } }

/-- `NoaaRequest.end_date`: writes `self._time_range.end`, returns self. -/
def NoaaRequest.end_date (r : NoaaRequest) (e : Datetime) : NoaaRequest :=
  { r with _time_range := { r._time_range with «end» := some e } }

/-- `NoaaRequest.range`: writes `self._time_range.hours`, returns self. -/
def NoaaRequest.range (r : NoaaRequest) (hours : Int) : NoaaRequest :=
  { r with _time_range := { r._time_range with hours := some hours } }

/-- `NoaaRequest.station`: writes `self._station`, returns self. -/
def NoaaRequest.station (r : NoaaRequest) (station_id : Int) : NoaaRequest :=
  { r with _station := some station_id }

/-- `NoaaRequest.date`: accepts a `NoaaDate` or a string; a string is resolved
through `NoaaDate(date)`, raising `ValueError` on no match. -/
def NoaaRequest.date (r : NoaaRequest) (date : NoaaDate ⊕ String) :
    Except ValueError NoaaRequest :=
  match date with
  | .inl d => .ok { r with _time_range := { r._time_range with date := some d } }
  | .inr s =>
    match NoaaDate.ofValue s with
    | some d => .ok { r with _time_range := { r._time_range with date := some d } }
    | none => .error ⟨s ++ " is not a valid NoaaDate"⟩

/-- `NoaaRequest.product`: accepts a `Product` or a string; a string is
resolved through `Product(product)`, raising `ValueError` on no match. -/
def NoaaRequest.product (r : NoaaRequest) (product : Product ⊕ String) :
    Except ValueError NoaaRequest :=
  match product with
  | .inl p => .ok { r with _product := some p }
  | .inr s =>
    match Product.ofValue s with
    | some p => .ok { r with _product := some p }
    | none => .error ⟨s ++ " is not a valid Product"⟩

/-- `NoaaRequest.datum`: accepts a `Datum` or a string; a string is resolved
through `Datum(datum)`, raising `ValueError` on no match. -/
def NoaaRequest.datum (r : NoaaRequest) (datum : Datum ⊕ String) :
    Except ValueError NoaaRequest :=
  match datum with
  | .inl d => .ok { r with _datum := some d }
  | .inr s =>
    match Datum.ofValue s with
    | some d => .ok { r with _datum := some d }
    | none => .error ⟨s ++ " is not a valid Datum"⟩

/-- `NoaaRequest.units`: accepts a `Unit` or a string; a string is resolved
through `Unit(units)`, raising `ValueError` on no match. -/
def NoaaRequest.units (r : NoaaRequest) (units : Unit ⊕ String) :
    Except ValueError NoaaRequest :=
  match units with
  | .inl u => .ok { r with _units := some u }
  | .inr s =>
    match Unit.ofValue s with
    | some u => .ok { r with _units := some u }
    | none => .error ⟨s ++ " is not a valid Unit"⟩

/-- `NoaaRequest.interval`: accepts an `Interval` or a string; a string is
resolved through `Interval(interval)`, raising `ValueError` on no match. -/
def NoaaRequest.interval (r : NoaaRequest) (interval : Interval ⊕ String) :
    Except ValueError NoaaRequest :=
  match interval with
  | .inl i => .ok { r with _interval := some i }
  | .inr s =>
    match Interval.ofValue s with
    | some i => .ok { r with _interval := some i }
    | none => .error ⟨s ++ " is not a valid Interval"⟩

/-- `NoaaRequest.timezone`: accepts a `TimeZone` or a string; a string is
resolved through `TimeZone(timezone)`, raising `ValueError` on no match. -/
def NoaaRequest.timezone (r : NoaaRequest) (timezone : TimeZone ⊕ String) :
    Except ValueError NoaaRequest :=
  match timezone with
  | .inl tz => .ok { r with _timezone := some tz }
  | .inr s =>
    match TimeZone.ofValue s with
    | some tz => .ok { r with _timezone := some tz }
    | none => .error ⟨s ++ " is not a valid TimeZone"⟩

/-- The fixed part of `NoaaRequest.URL_FORMAT`, up to the `format(args)`
insertion point. -/
def NoaaRequest.URL_FORMAT_PREFIX : String :=
  "https://tidesandcurrents.noaa.gov/api/datagetter?&application=noaa_py&format=json&"

/-- `NoaaRequest.__str__`: the request URL.  The source reads `.value` off
`self._product`, `self._datum`, `self._units` and `self._timezone` with no
`None` guard, so when any of those four is `None` the method raises
`AttributeError`, modelled as `none`; `self._interval` is guarded
(`... if self._interval else ""`) and `self._station` goes through `str`,
which renders `None` as the text `"None"`. -/
def NoaaRequest.toUrl (r : NoaaRequest) : Option String :=
  match r._product, r._datum, r._units, r._timezone with
  | some p, some d, some u, some tz =>
    let interval := match r._interval with
      | some i => i.value
      | none => ""
    let station := match r._station with
      | some n => toString n
      | none => "None"
    some (NoaaRequest.URL_FORMAT_PREFIX ++ String.intercalate "&" [
      r._time_range.queryString,
      "product=" ++ p.value,
      "datum=" ++ d.value,
      "units=" ++ u.value,
      "time_zone=" ++ tz.value,
      "interval=" ++ interval,
      "station=" ++ station])
  | _, _, _, _ => none

/-- One `if not <cond>:` block of `NoaaRequest._ready`: on failure the running
result becomes `False`, and with `error=True` the block raises instead. -/
def readyStep (error ok : Bool) (msg : String) (res : Bool) : Except ApiError Bool :=
  if !ok then
    if error then .error ⟨msg⟩ else .ok false
  else .ok res

/-- `NoaaRequest._ready(error)`: the six checks of the source, in source
order, sequenced through `readyStep`; `res` starts `True`.  `isinstance(x, E)`
on an `Option`-typed field of a typed embedding is `isSome`; `not self._station`
is the integer-truthiness test. -/
def NoaaRequest.ready (r : NoaaRequest) (error : Bool) : Except ApiError Bool :=
  (readyStep error r._time_range.is_valid "Invalid time range specification." true).bind fun res =>
  (readyStep error r._product.isSome "Invalid or absent NOAA Product." res).bind fun res =>
  (readyStep error r._datum.isSome "Invalid or absent NOAA Datum." res).bind fun res =>
  (readyStep error r._units.isSome "Invalid or absent Unit specification." res).bind fun res =>
  (readyStep error r._timezone.isSome "Invalid or absent Timezone." res).bind fun res =>
  (readyStep error (stationTruthy r._station) "Absent Station ID." res).bind fun res =>
  .ok res

/-- A decoded JSON row object, restricted to the string-valued keys the two
row parsers read (`t`, `v`, `s`, `f`, `q`, `type`); an absent key is `none`
and reading it raises `KeyError`. -/
structure RawRow where
  t : Option String := none
  v : Option String := none
  s : Option String := none
  f : Option String := none
  q : Option String := none
  type : Option String := none
deriving DecidableEq

/-- `DataRow` (a `NamedTuple`). -/
structure DataRow where
  time : Datetime
  value : Rat
  stdev : Rat
  flags : List Bool
  quality : String
deriving DecidableEq

/-- `PredictionsRow` (a `NamedTuple`); `type` is `None` when the key is
absent. -/
structure PredictionsRow where
  time : Datetime
  value : Rat
  type : Option String
deriving DecidableEq

/-- The flags comprehension `[int(x) == 1 for x in row["f"].split(",")]`:
each comma-separated component goes through `int`, raising `ValueError`
(`none`) on a non-numeric component. -/
def parseBits : List String → Option (List Bool)
  | [] => some []
  | x :: rest => do
    let n ← pyInt x
    let bs ← parseBits rest
    pure ((n == 1) :: bs)

/-- The body of the `DataResult.__init__` loop: parse one JSON row into a
`DataRow`, field reads and conversions in source order; any `KeyError` or
`ValueError` aborts (`none`). -/
def DataResult.parseRow (row : RawRow) : Option DataRow := do
  let ts ← row.t
  let time ← strptime ts
  let vs ← row.v
  let value ← pyFloat vs
  let ss ← row.s
  let stdev ← pyFloat ss
  let fs ← row.f
  let flags ← parseBits (pySplit fs ',')
  let quality ← row.q
  pure ⟨time, value, stdev, flags, quality⟩

/-- `DataResult.__init__`: the rows list built by the loop; an exception in
any iteration aborts the whole construction with no partial result. -/
def DataResult.parseRows : List RawRow → Option (List DataRow)
  | [] => some []
  | row :: rest => do
    let r ← DataResult.parseRow row
    let rs ← DataResult.parseRows rest
    pure (r :: rs)

/-- The body of the `PredictionsResult.__init__` loop: parse one JSON row
into a `PredictionsRow`; `type` is read with an `in` guard and never fails. -/
def PredictionsResult.parseRow (row : RawRow) : Option PredictionsRow := do
  let ts ← row.t
  let time ← strptime ts
  let vs ← row.v
  let value ← pyFloat vs
  pure ⟨time, value, row.type⟩

/-- `PredictionsResult.__init__`: the rows list built by the loop; an
exception in any iteration aborts the whole construction. -/
def PredictionsResult.parseRows : List RawRow → Option (List PredictionsRow)
  | [] => some []
  | row :: rest => do
    let r ← PredictionsResult.parseRow row
    let rs ← PredictionsResult.parseRows rest
    pure (r :: rs)

/-- The decoded JSON payload returned by `requests.get(url).json()`,
restricted to the keys `execute` reads: `error` (modelled by its
`["message"]` text), `predictions` and `data`. -/
structure Payload where
  error : Option String := none
  predictions : Option (List RawRow) := none
  data : Option (List RawRow) := none

/-- The value `execute` returns: a `PredictionsResult` or a `DataResult`. -/
inductive ExecResult where
  | predictions : List PredictionsRow → ExecResult
  | data : List DataRow → ExecResult
deriving DecidableEq

/-- Outcome of `NoaaRequest.execute`: a result, an `ApiError`, or some other
Python exception (`AttributeError` from `__str__`, `KeyError` on a missing
payload key, `ValueError` from row parsing) identified by its class name. -/
inductive ExecOutcome where
  | ok : ExecResult → ExecOutcome
  | apiError : ApiError → ExecOutcome
  | pyError : String → ExecOutcome
deriving DecidableEq

/-- `NoaaRequest.execute`, with the network transport
`requests.get(str(self)).json()` abstracted as a `fetch` function from the
URL to the decoded payload.  Source order: `self._ready(error=True)` first;
then the fetch on `str(self)`; then the `"error" in data` check; then parser
selection on `self._product == Product.PREDICTIONS`. -/
def NoaaRequest.execute (r : NoaaRequest) (fetch : String → Payload) : ExecOutcome :=
  match r.ready true with
  | .error e => .apiError e
  | .ok _ =>
    match r.toUrl with
    | none => .pyError "AttributeError"
    | some url =>
      let payload := fetch url
      match payload.error with
      | some msg => .apiError ⟨msg⟩
      | none =>
        if r._product = some Product.PREDICTIONS then
          match payload.predictions with
          | none => .pyError "KeyError"
          | some rows =>
            match PredictionsResult.parseRows rows with
            | none => .pyError "ValueError"
            | some prs => .ok (.predictions prs)
        else
          match payload.data with
          | none => .pyError "KeyError"
          | some rows =>
            match DataResult.parseRows rows with
            | none => .pyError "ValueError"
            | some drs => .ok (.data drs)

/-- Method-style (state-passing) view of `_ready`: a Python method receives
`self` and may reassign its fields; `_ready` contains no field assignment, so
the embedding returns the state it received. -/
def NoaaRequest.readyS (r : NoaaRequest) (error : Bool) :
    (Except ApiError Bool) × NoaaRequest :=
  (r.ready error, r)

/-- Method-style (state-passing) view of `execute`: the source assigns no
field of `self` (and none of `self._time_range`), so the embedding returns
the state it received. -/
def NoaaRequest.executeS (r : NoaaRequest) (fetch : String → Payload) :
    ExecOutcome × NoaaRequest :=
  (r.execute fetch, r)

/-- A fully configured request, as built in `test_execute_predictions_request`:
station 8720211, predictions, hilo interval, 2019-05-01 to 2019-05-02,
english units, MLLW datum, GMT. -/
def reqA : NoaaRequest :=
  { _time_range := { begin := some ⟨2019, 5, 1, 0, 0⟩, «end» := some ⟨2019, 5, 2, 0, 0⟩ },
    _product := some .PREDICTIONS, _datum := some .MEAN_LOWER_LOW_WATER,
    _units := some .ENGLISH, _station := some 8720211,
    _interval := some .HILO, _timezone := some .GMT }

/-- The service message of `test_execute_bad_request`. -/
def svcMsg : String :=
  "No Predictions data was found. This product may not be offered at this station at the requested time."

/-- A well-formed observation JSON row (first row of
`test_execute_waterlevel_request`, with unit-valued numeric fields). -/
def goodDataRow : RawRow :=
  { t := some "2019-05-07 18:24", v := some "1", s := some "0",
    f := some "0,0,0,0", q := some "p" }

/-- The message of the first failing `_ready` check, in source order. -/
def firstFailMsg (r : NoaaRequest) : String :=
  if !r._time_range.is_valid then "Invalid time range specification."
  else if !r._product.isSome then "Invalid or absent NOAA Product."
  else if !r._datum.isSome then "Invalid or absent NOAA Datum."
  else if !r._units.isSome then "Invalid or absent Unit specification."
  else if !r._timezone.isSome then "Invalid or absent Timezone."
  else "Absent Station ID."

/- ------------------------------------------------------------------ -/
/- Helper lemmas -/
/- ------------------------------------------------------------------ -/

theorem stationTruthy_iff (o : Option Int) :
    stationTruthy o = true ↔ ∃ n, o = some n ∧ n ≠ 0 := by
  cases o <;> simp [stationTruthy]

theorem ready_false_eq (r : NoaaRequest) :
    r.ready false = .ok
      (r._time_range.is_valid && r._product.isSome && r._datum.isSome
        && r._units.isSome && r._timezone.isSome && stationTruthy r._station) := by
  cases h1 : r._time_range.is_valid <;> cases h2 : r._product.isSome <;>
    cases h3 : r._datum.isSome <;> cases h4 : r._units.isSome <;>
    cases h5 : r._timezone.isSome <;> cases h6 : stationTruthy r._station <;>
    simp [NoaaRequest.ready, readyStep, h1, h2, h3, h4, h5, h6, Except.bind]

theorem ready_true_of_fail (r : NoaaRequest)
    (h : (r._time_range.is_valid && r._product.isSome && r._datum.isSome
        && r._units.isSome && r._timezone.isSome && stationTruthy r._station) = false) :
    r.ready true = .error ⟨firstFailMsg r⟩ := by
  cases h1 : r._time_range.is_valid <;> cases h2 : r._product.isSome <;>
    cases h3 : r._datum.isSome <;> cases h4 : r._units.isSome <;>
    cases h5 : r._timezone.isSome <;> cases h6 : stationTruthy r._station <;>
    simp [h1, h2, h3, h4, h5, h6] at h ⊢ <;>
    simp [NoaaRequest.ready, readyStep, firstFailMsg, h1, h2, h3, h4, h5, h6, Except.bind]

theorem ready_true_of_ok (r : NoaaRequest)
    (h : (r._time_range.is_valid && r._product.isSome && r._datum.isSome
        && r._units.isSome && r._timezone.isSome && stationTruthy r._station) = true) :
    r.ready true = .ok true := by
  cases h1 : r._time_range.is_valid <;> cases h2 : r._product.isSome <;>
    cases h3 : r._datum.isSome <;> cases h4 : r._units.isSome <;>
    cases h5 : r._timezone.isSome <;> cases h6 : stationTruthy r._station <;>
    simp [h1, h2, h3, h4, h5, h6] at h ⊢ <;>
    simp [NoaaRequest.ready, readyStep, Except.bind, h1, h2, h3, h4, h5, h6]

/- ------------------------------------------------------------------ -/
/- C1 -/
/- ------------------------------------------------------------------ -/

/-- C1, counterexample: the claim says that `begin` and `end` set together
with `duration_hours` set is invalid even when `duration_hours` is 0; the
code treats a zero `hours` as absent (Python falsiness), takes the
begin-and-end branch, and returns true. -/
theorem C1_counterexample :
    NoaaTimeRange.is_valid
      { begin := some ⟨2019, 1, 1, 0, 0⟩, «end» := some ⟨2019, 1, 2, 0, 0⟩,
        hours := some 0, date := none } = true := by decide

/-- C1, amended: `is_valid` returns true for exactly the five shapes, with a
populated `duration_hours` of 0 treated as absent: begin+end (strictly
ordered) with `hours` either unset or 0 and no named date; begin+duration,
end+duration, or duration alone with a positive duration and the other
fields unset; or a named date alone with `hours` either unset or 0. -/
theorem C1_is_valid_shapes (tr : NoaaTimeRange) :
    tr.is_valid = true ↔
      (∃ b e, tr.begin = some b ∧ tr.«end» = some e ∧
        (tr.hours = none ∨ tr.hours = some 0) ∧ tr.date = none ∧
        Datetime.ltB b e = true) ∨
      (∃ b h, tr.begin = some b ∧ tr.hours = some h ∧ 0 < h ∧
        tr.«end» = none ∧ tr.date = none) ∨
      (∃ e h, tr.«end» = some e ∧ tr.hours = some h ∧ 0 < h ∧
        tr.begin = none ∧ tr.date = none) ∨
      (∃ h, tr.hours = some h ∧ 0 < h ∧ tr.begin = none ∧
        tr.«end» = none ∧ tr.date = none) ∨
      (∃ d, tr.date = some d ∧ tr.begin = none ∧ tr.«end» = none ∧
        (tr.hours = none ∨ tr.hours = some 0)) := by
  obtain ⟨ob, oe, oh, od⟩ := tr
  have hsplit : oh = none ∨ oh = some 0 ∨ ∃ h : Int, oh = some h ∧ h ≠ 0 := by
    rcases oh with _ | h
    · exact .inl rfl
    · rcases eq_or_ne h 0 with rfl | hh
      · exact .inr (.inl rfl)
      · exact .inr (.inr ⟨h, rfl, hh⟩)
  rcases hsplit with rfl | rfl | ⟨h, rfl, hh⟩ <;>
    rcases ob with _ | b <;> rcases oe with _ | e <;> rcases od with _ | d <;>
    simp [NoaaTimeRange.is_valid, hoursTruthy, *]

/- ------------------------------------------------------------------ -/
/- C6 -/
/- ------------------------------------------------------------------ -/

/-- C6, counterexample: the claim says `serialize()` emits a key for every
populated field, with `range` emitted as the decimal string of
`duration_hours` including when it is 0; on a range with `duration_hours`
populated as 0 the code emits nothing at all. -/
theorem C6_counterexample :
    ({ hours := some 0 } : NoaaTimeRange).hours = some 0 ∧
    NoaaTimeRange.as_dict { hours := some 0 } = [] := ⟨rfl, rfl⟩

/-- C6, amended: for every time range, valid or not, `as_dict` emits keys in
the fixed order begin_date, end_date, range, date; it emits exactly the keys
of the populated fields, except that a populated `duration_hours` of 0 is
treated as absent; begin and end are formatted `YYYYMMDD HH:MM`, range is
the decimal string of the hours, date is the named-date literal value. -/
theorem C6_as_dict_spec (tr : NoaaTimeRange) :
    List.Sublist (tr.as_dict.map Prod.fst) ["begin_date", "end_date", "range", "date"] ∧
    ∀ kv : String × String, kv ∈ tr.as_dict ↔
      ((∃ b, tr.begin = some b ∧ kv = ("begin_date", b.strftime)) ∨
       (∃ e, tr.«end» = some e ∧ kv = ("end_date", e.strftime)) ∨
       (∃ h, tr.hours = some h ∧ h ≠ 0 ∧ kv = ("range", toString h)) ∨
       (∃ d, tr.date = some d ∧ kv = ("date", d.value))) := by
  obtain ⟨ob, oe, oh, od⟩ := tr
  have hsplit : oh = none ∨ oh = some 0 ∨ ∃ h : Int, oh = some h ∧ h ≠ 0 := by
    rcases oh with _ | h
    · exact .inl rfl
    · rcases eq_or_ne h 0 with rfl | hh
      · exact .inr (.inl rfl)
      · exact .inr (.inr ⟨h, rfl, hh⟩)
  constructor
  · rcases hsplit with rfl | rfl | ⟨h, rfl, hh⟩ <;>
      rcases ob with _ | b <;> rcases oe with _ | e <;> rcases od with _ | d <;>
      simp [NoaaTimeRange.as_dict, *]
  · intro kv
    rcases hsplit with rfl | rfl | ⟨h, rfl, hh⟩ <;>
      rcases ob with _ | b <;> rcases oe with _ | e <;> rcases od with _ | d <;>
      simp [NoaaTimeRange.as_dict, Prod.ext_iff, *]

/- ------------------------------------------------------------------ -/
/- C2 -/
/- ------------------------------------------------------------------ -/

/-- C2, counterexample: the claim says `to_url()` returns a syntactically
complete URL for every request state and never fails; on a fresh request
(product, datum, units, timezone all unset) `__str__` reads `.value` off
`None` and raises `AttributeError`, so no URL string is produced. -/
theorem C2_counterexample : NoaaRequest.toUrl {} = none := rfl

/-- C2, amended: `to_url()` performs no readiness validation, but it is total
only on requests whose product, datum, units and timezone are set; station
and interval may be unset (they render as `station=None` and `interval=`),
and the time range may be empty or invalid.  With any of the four enum
fields unset it raises `AttributeError` instead of returning a URL. -/
theorem C2_toUrl_total_iff (r : NoaaRequest) :
    (r.toUrl).isSome =
      (r._product.isSome && r._datum.isSome && r._units.isSome && r._timezone.isSome) := by
  obtain ⟨tr, op, od, ou, os, oi, oz⟩ := r
  rcases op with _ | p <;> rcases od with _ | d <;> rcases ou with _ | u <;>
    rcases oz with _ | z <;> rfl

/- ------------------------------------------------------------------ -/
/- C3 -/
/- ------------------------------------------------------------------ -/

/-- C3: when `is_ready()` is false, `execute()` raises an `ApiError` naming
the first failing condition in the fixed order (time range, product, datum,
units, timezone, station id), and the outcome does not depend on the
transport `fetch` at all — no network call is issued. -/
theorem C3_execute_fail_fast (r : NoaaRequest) (h : r.ready false = .ok false) :
    ∀ fetch : String → Payload, r.execute fetch = .apiError ⟨firstFailMsg r⟩ := by
  intro fetch
  rw [ready_false_eq] at h
  have hfail := ready_true_of_fail r (by
    cases hc : (r._time_range.is_valid && r._product.isSome && r._datum.isSome
        && r._units.isSome && r._timezone.isSome && stationTruthy r._station)
    · rfl
    · rw [hc] at h; cases h)
  simp [NoaaRequest.execute, hfail]

/-- C3 witness: a fresh request is not ready, and executing it (against a
transport that would return an empty payload) raises the time-range
configuration error. -/
theorem C3_witness :
    NoaaRequest.ready {} false = .ok false ∧
    NoaaRequest.execute {} (fun _ => {}) = .apiError ⟨"Invalid time range specification."⟩ := by
  refine ⟨rfl, ?_⟩
  exact C3_execute_fail_fast {} rfl (fun _ => {})

/- ------------------------------------------------------------------ -/
/- C4 -/
/- ------------------------------------------------------------------ -/

/-- C4, code evidence: a configuration failure (fresh request) and a
server-reported failure (ready request whose payload carries an `error` key)
both surface as the same error kind, `ApiError` — the module defines no
other exception class — while the service message is carried verbatim.  The
spec asks for two distinct kinds; `_ready`'s own docstring promises a
`MalformedRequestException` that does not exist, and `ApiError`'s docstring
scopes it to well-formed requests rejected by the server. -/
theorem C4_one_error_class :
    NoaaRequest.execute {} (fun _ => {}) =
      .apiError ⟨"Invalid time range specification."⟩ ∧
    reqA.execute (fun _ => { error := some svcMsg }) = .apiError ⟨svcMsg⟩ := ⟨rfl, rfl⟩

/- ------------------------------------------------------------------ -/
/- C5 -/
/- ------------------------------------------------------------------ -/

/-- C5: `is_ready()` is true iff the embedded time range is valid, product,
datum, units and timezone are populated (with enum members — the only values
the typed fields can hold), and the station id is set and nonzero; the
`interval` field never affects readiness. -/
theorem C5_is_ready_iff (r : NoaaRequest) :
    (r.ready false = .ok true ↔
      (r._time_range.is_valid = true ∧ r._product.isSome = true ∧
       r._datum.isSome = true ∧ r._units.isSome = true ∧
       r._timezone.isSome = true ∧ ∃ n, r._station = some n ∧ n ≠ 0)) ∧
    ∀ i, ({ r with _interval := i } : NoaaRequest).ready false = r.ready false := by
  constructor
  · rw [ready_false_eq, ← stationTruthy_iff]
    constructor
    · intro h
      have := Except.ok.inj h
      simp at this
      tauto
    · intro ⟨h1, h2, h3, h4, h5, h6⟩
      simp [h1, h2, h3, h4, h5, h6]
  · intro i
    rw [ready_false_eq, ready_false_eq]

/- ------------------------------------------------------------------ -/
/- C9 -/
/- ------------------------------------------------------------------ -/

/-- C9: the readiness check and `execute` are read-only on the request
state: in the method-style (state-passing) embedding, the state coming out
of `_ready(error=True)` and out of `execute` — including the embedded
`NoaaTimeRange` — is the state that went in, whether or not a configuration
error is raised (the source contains no assignment to any field of `self`
or `self._time_range` in either method). -/
theorem C9_ready_execute_read_only (r : NoaaRequest) :
    (∀ error, (r.readyS error).2 = r) ∧
    (∀ fetch, (r.executeS fetch).2 = r) :=
  ⟨fun _ => rfl, fun _ => rfl⟩

/- ------------------------------------------------------------------ -/
/- C7 -/
/- ------------------------------------------------------------------ -/

theorem dataRows_none_of_mem {rows : List RawRow} {row : RawRow}
    (hmem : row ∈ rows) (hfail : DataResult.parseRow row = none) :
    DataResult.parseRows rows = none := by
  induction rows with
  | nil => cases hmem
  | cons x xs ih =>
    rcases List.mem_cons.mp hmem with rfl | hmem2
    · simp [DataResult.parseRows, hfail]
    · cases hx : DataResult.parseRow x <;>
        simp [DataResult.parseRows, hx, ih hmem2]

theorem dataRows_some_spec :
    ∀ {rows : List RawRow} {out : List DataRow},
      DataResult.parseRows rows = some out →
      out.length = rows.length ∧
      ∀ i (h1 : i < rows.length) (h2 : i < out.length),
        DataResult.parseRow (rows.get ⟨i, h1⟩) = some (out.get ⟨i, h2⟩) := by
  intro rows
  induction rows with
  | nil =>
    intro out h
    simp [DataResult.parseRows] at h
    subst h
    exact ⟨rfl, fun i h1 _ => absurd h1 (by simp)⟩
  | cons x xs ih =>
    intro out h
    simp only [DataResult.parseRows, Option.bind_eq_bind, Option.bind_eq_some,
      Option.pure_def, Option.some.injEq] at h
    obtain ⟨r, hr, rs, hrs, hout⟩ := h
    subst hout
    obtain ⟨hlen, hget⟩ := ih hrs
    refine ⟨by simp [hlen], ?_⟩
    intro i h1 h2
    cases i with
    | zero => simpa using hr
    | succ n => simpa using hget n (by simpa using h1) (by simpa using h2)

theorem predictionsRows_none_of_mem {rows : List RawRow} {row : RawRow}
    (hmem : row ∈ rows) (hfail : PredictionsResult.parseRow row = none) :
    PredictionsResult.parseRows rows = none := by
  induction rows with
  | nil => cases hmem
  | cons x xs ih =>
    rcases List.mem_cons.mp hmem with rfl | hmem2
    · simp [PredictionsResult.parseRows, hfail]
    · cases hx : PredictionsResult.parseRow x <;>
        simp [PredictionsResult.parseRows, hx, ih hmem2]

theorem predictionsRows_some_spec :
    ∀ {rows : List RawRow} {out : List PredictionsRow},
      PredictionsResult.parseRows rows = some out →
      out.length = rows.length ∧
      ∀ i (h1 : i < rows.length) (h2 : i < out.length),
        PredictionsResult.parseRow (rows.get ⟨i, h1⟩) = some (out.get ⟨i, h2⟩) := by
  intro rows
  induction rows with
  | nil =>
    intro out h
    simp [PredictionsResult.parseRows] at h
    subst h
    exact ⟨rfl, fun i h1 _ => absurd h1 (by simp)⟩
  | cons x xs ih =>
    intro out h
    simp only [PredictionsResult.parseRows, Option.bind_eq_bind, Option.bind_eq_some,
      Option.pure_def, Option.some.injEq] at h
    obtain ⟨r, hr, rs, hrs, hout⟩ := h
    subst hout
    obtain ⟨hlen, hget⟩ := ih hrs
    refine ⟨by simp [hlen], ?_⟩
    intro i h1 h2
    cases i with
    | zero => simpa using hr
    | succ n => simpa using hget n (by simpa using h1) (by simpa using h2)

/-- C7: row parsing is all-or-nothing for both result kinds: if any row of
the payload fails to parse (missing key, unparseable timestamp, non-numeric
value), the whole result is aborted with no partial rows; if every row
parses, the result has exactly one typed row per input row, in input order. -/
theorem C7_all_or_nothing (rows : List RawRow) :
    ((∃ row ∈ rows, DataResult.parseRow row = none) →
      DataResult.parseRows rows = none) ∧
    (∀ out, DataResult.parseRows rows = some out →
      out.length = rows.length ∧
      ∀ i (h1 : i < rows.length) (h2 : i < out.length),
        DataResult.parseRow (rows.get ⟨i, h1⟩) = some (out.get ⟨i, h2⟩)) ∧
    ((∃ row ∈ rows, PredictionsResult.parseRow row = none) →
      PredictionsResult.parseRows rows = none) ∧
    (∀ out, PredictionsResult.parseRows rows = some out →
      out.length = rows.length ∧
      ∀ i (h1 : i < rows.length) (h2 : i < out.length),
        PredictionsResult.parseRow (rows.get ⟨i, h1⟩) = some (out.get ⟨i, h2⟩)) := by
  refine ⟨?_, ?_, ?_, ?_⟩
  · rintro ⟨row, hmem, hfail⟩
    exact dataRows_none_of_mem hmem hfail
  · intro out h
    exact dataRows_some_spec h
  · rintro ⟨row, hmem, hfail⟩
    exact predictionsRows_none_of_mem hmem hfail
  · intro out h
    exact predictionsRows_some_spec h

/-- C7 witness: a list with one malformed row (unparseable timestamp) parses
to nothing at all, and a list with one well-formed row parses to exactly
one typed row. -/
theorem C7_witness :
    DataResult.parseRows [{ t := some "garbage" }] = none ∧
    DataResult.parseRows [goodDataRow] =
      some [⟨⟨2019, 5, 7, 18, 24⟩, 1, 0, [false, false, false, false], "p"⟩] ∧
    DataResult.parseRow goodDataRow =
      some ⟨⟨2019, 5, 7, 18, 24⟩, 1, 0, [false, false, false, false], "p"⟩ := by
  have hgood : DataResult.parseRows [goodDataRow] =
      some [⟨⟨2019, 5, 7, 18, 24⟩, 1, 0, [false, false, false, false], "p"⟩] := by decide
  refine ⟨?_, hgood, ?_⟩
  · exact (C7_all_or_nothing [{ t := some "garbage" }]).1
      ⟨{ t := some "garbage" }, List.mem_singleton_self _, rfl⟩
  · exact ((C7_all_or_nothing [goodDataRow]).2.1 _ hgood).2 0 (by decide) (by decide)

/- ------------------------------------------------------------------ -/
/- C8 -/
/- ------------------------------------------------------------------ -/

theorem parseBits_binary :
    ∀ {l : List String}, (∀ c ∈ l, c = "0" ∨ c = "1") →
      parseBits l = some (l.map (fun c => c == "1")) := by
  intro l
  induction l with
  | nil => intro _; rfl
  | cons x xs ih =>
    intro h
    have hx := h x (List.mem_cons_self x xs)
    have hxs := ih (fun c hc => h c (List.mem_cons_of_mem _ hc))
    have h0 : pyInt "0" = some 0 := by decide
    have h1 : pyInt "1" = some 1 := by decide
    have e0 : ((0 : Int) == 1) = false := by decide
    have e1 : ((1 : Int) == 1) = true := by decide
    have s0 : ("0" == "1") = false := by decide
    have s1 : ("1" == "1") = true := by decide
    rcases hx with rfl | rfl <;>
      simp [parseBits, hxs, h0, h1, e0, e1, s0, s1]

/-- C8: a flags field that is a comma-separated string of 0/1 digits parses
to the boolean list of the same length and order, each `1` to true and each
`0` to false. -/
theorem C8_flags_parse (f : String)
    (h : ∀ c ∈ pySplit f ',', c = "0" ∨ c = "1") :
    parseBits (pySplit f ',') = some ((pySplit f ',').map (fun c => c == "1")) :=
  parseBits_binary h

/-- C8 witness: the two flag strings of the spec scenario. -/
theorem C8_witness :
    ((∀ c ∈ pySplit "0,0,0,0" ',', c = "0" ∨ c = "1") ∧
      parseBits (pySplit "0,0,0,0" ',') = some [false, false, false, false]) ∧
    ((∀ c ∈ pySplit "1,0,0,0" ',', c = "0" ∨ c = "1") ∧
      parseBits (pySplit "1,0,0,0" ',') = some [true, false, false, false]) := by
  refine ⟨⟨by decide, ?_⟩, ⟨by decide, ?_⟩⟩
  · exact (C8_flags_parse "0,0,0,0" (by decide)).trans (by decide)
  · exact (C8_flags_parse "1,0,0,0" (by decide)).trans (by decide)

/- ------------------------------------------------------------------ -/
/- C10 -/
/- ------------------------------------------------------------------ -/

theorem product_ofValue_iff (s : String) (p : Product) :
    Product.ofValue s = some p ↔ p.value = s := by
  constructor
  · intro h
    simpa using List.find?_some h
  · intro h
    subst h
    cases p <;> decide

theorem datum_ofValue_iff (s : String) (d : Datum) :
    Datum.ofValue s = some d ↔ d.value = s := by
  constructor
  · intro h
    simpa using List.find?_some h
  · intro h
    subst h
    cases d <;> decide

theorem unit_ofValue_iff (s : String) (u : Unit) :
    Unit.ofValue s = some u ↔ u.value = s := by
  constructor
  · intro h
    simpa using List.find?_some h
  · intro h
    subst h
    cases u <;> decide

theorem interval_ofValue_iff (s : String) (i : Interval) :
    Interval.ofValue s = some i ↔ i.value = s := by
  constructor
  · intro h
    simpa using List.find?_some h
  · intro h
    subst h
    cases i <;> decide

theorem timezone_ofValue_iff (s : String) (tz : TimeZone) :
    TimeZone.ofValue s = some tz ↔ tz.value = s := by
  constructor
  · intro h
    simpa using List.find?_some h
  · intro h
    subst h
    cases tz <;> decide

theorem noaaDate_ofValue_iff (s : String) (d : NoaaDate) :
    NoaaDate.ofValue s = some d ↔ d.value = s := by
  constructor
  · intro h
    simpa using List.find?_some h
  · intro h
    subst h
    cases d <;> decide

/-- C10: every string-accepting setter resolves the string to an enum member
at call time — successfully exactly when the string is the literal value of
a member, in which case the field is set to that member — and raises
(`ValueError`) on an unrecognized string, leaving a request whose enum-typed
fields, being `Option`-of-enum, can only ever be unset or valid members. -/
theorem C10_string_setters (r : NoaaRequest) (s : String) :
    ((∀ p, Product.ofValue s = some p ↔ p.value = s) ∧
     (∀ p, Product.ofValue s = some p →
        r.product (.inr s) = .ok { r with _product := some p }) ∧
     (Product.ofValue s = none → ∃ e, r.product (.inr s) = .error e)) ∧
    ((∀ d, Datum.ofValue s = some d ↔ d.value = s) ∧
     (∀ d, Datum.ofValue s = some d →
        r.datum (.inr s) = .ok { r with _datum := some d }) ∧
     (Datum.ofValue s = none → ∃ e, r.datum (.inr s) = .error e)) ∧
    ((∀ u, Unit.ofValue s = some u ↔ u.value = s) ∧
     (∀ u, Unit.ofValue s = some u →
        r.units (.inr s) = .ok { r with _units := some u }) ∧
     (Unit.ofValue s = none → ∃ e, r.units (.inr s) = .error e)) ∧
    ((∀ i, Interval.ofValue s = some i ↔ i.value = s) ∧
     (∀ i, Interval.ofValue s = some i →
        r.interval (.inr s) = .ok { r with _interval := some i }) ∧
     (Interval.ofValue s = none → ∃ e, r.interval (.inr s) = .error e)) ∧
    ((∀ tz, TimeZone.ofValue s = some tz ↔ tz.value = s) ∧
     (∀ tz, TimeZone.ofValue s = some tz →
        r.timezone (.inr s) = .ok { r with _timezone := some tz }) ∧
     (TimeZone.ofValue s = none → ∃ e, r.timezone (.inr s) = .error e)) ∧
    ((∀ d, NoaaDate.ofValue s = some d ↔ d.value = s) ∧
     (∀ d, NoaaDate.ofValue s = some d →
        r.date (.inr s) =
          .ok { r with _time_range := { r._time_range with date := some d } }) ∧
     (NoaaDate.ofValue s = none → ∃ e, r.date (.inr s) = .error e)) := by
  refine ⟨⟨fun p => product_ofValue_iff s p, fun p h => ?_, fun h => ?_⟩,
          ⟨fun d => datum_ofValue_iff s d, fun d h => ?_, fun h => ?_⟩,
          ⟨fun u => unit_ofValue_iff s u, fun u h => ?_, fun h => ?_⟩,
          ⟨fun i => interval_ofValue_iff s i, fun i h => ?_, fun h => ?_⟩,
          ⟨fun tz => timezone_ofValue_iff s tz, fun tz h => ?_, fun h => ?_⟩,
          ⟨fun d => noaaDate_ofValue_iff s d, fun d h => ?_, fun h => ?_⟩⟩ <;>
    simp [NoaaRequest.product, NoaaRequest.datum, NoaaRequest.units,
      NoaaRequest.interval, NoaaRequest.timezone, NoaaRequest.date, h]

/-- C10 witness: a recognized product string resolves and is stored; an
unrecognized one raises. -/
theorem C10_witness :
    Product.ofValue "water_level" = some Product.WATER_LEVEL ∧
    NoaaRequest.product {} (.inr "water_level") =
      .ok { _product := some Product.WATER_LEVEL } ∧
    (∃ e, NoaaRequest.product {} (.inr "bogus") = .error e) := by
  have h1 : Product.ofValue "water_level" = some Product.WATER_LEVEL :=
    (((C10_string_setters {} "water_level").1).1 Product.WATER_LEVEL).mpr (by decide)
  refine ⟨h1, ((C10_string_setters {} "water_level").1).2.1 Product.WATER_LEVEL h1, ?_⟩
  exact ((C10_string_setters {} "bogus").1).2.2 (by decide)

end Tides
